import Mathlib

/-!
Verification of the Praggo AI credential-rotation dispatcher
(`server/praggoAI.ts` of sahidx/saro).

The service keeps an in-memory pool of API credentials (`apiKeys`) plus a
cursor (`currentKeyIndex`).  `makeAPICall` loops over attempts bounded by
`maxRetries` (7) and the pool size, invoking the backend with the current
credential; quota-classified failures rotate the cursor and retry, other
failures abort.  Every attempt logs a usage record; all database writes are
wrapped in try/catch and never influence control flow.

Modelling conventions:
* The backend (`genAI.models.generateContent` plus the response-text
  extraction of lines 242-278) is abstracted as a function from the
  invocation ordinal and the credential used to `Except JsError String`;
  any exception thrown while extracting text is just another `JsError`.
* JavaScript `null`/`undefined` fields are `Option`s; JS truthiness of a
  numeric field is "present and nonzero".
* Database effects (usage rows, quota marks) are tracked in an explicit
  `DbState`; a failure oracle `Nat → Bool` says whether the n-th database
  call throws.  The source wraps every database call in try/catch, which
  is modelled by the oracle branch leaving control flow unchanged.
* The `while` loop of `makeAPICall` is written with an explicit fuel
  argument co-tracking `maxRetries - attempt` so that the recursion is
  structural; the loop guard `attempt < maxRetries` is kept verbatim, so
  the fuel case split never changes behaviour.
-/

namespace PraggoAI

/-! ## String helpers (JS `String.prototype.includes` / `toLowerCase`) -/

/-- `prefixMatch needle hay` is true when `needle` is a prefix of `hay`. -/
def prefixMatch : List Char → List Char → Bool
  | [], _ => true
  | _ :: _, [] => false
  | n :: ns, h :: hs => n == h && prefixMatch ns hs

/-- `hasSubL needle hay`: `needle` occurs contiguously inside `hay`. -/
def hasSubL (needle : List Char) : List Char → Bool
  | [] => prefixMatch needle []
  | h :: hs => prefixMatch needle (h :: hs) || hasSubL needle hs

/-- JS `hay.includes(needle)`. -/
def strContains (hay needle : String) : Bool :=
  hasSubL needle.data hay.data

/-- ASCII lowering, adequate for the classifier's ASCII needles
(JS `toLowerCase`). -/
def lowerStr (s : String) : String :=
  ⟨s.data.map Char.toLower⟩

/-! ## Error values (JS exceptions as seen by the service) -/

/-- A JavaScript error as inspected by `isQuotaError` and the dispatcher:
optional `message`, optional numeric `status` and `code` fields. -/
structure JsError where
  message : Option String
  status : Option Int
  code : Option Int
deriving DecidableEq, Repr

/-- `error?.status || error?.code` — JS `||` falls through on the falsy
number `0` as well as on `undefined`. -/
def errStatus (e : JsError) : Option Int :=
  match e.status with
  | some s => if s = 0 then e.code else some s
  | none => e.code

/-- `error?.message?.toLowerCase() || ''` -/
def lowerMsg (e : JsError) : String :=
  lowerStr (e.message.getD (""))

/-- Source `isQuotaError` (praggoAI.ts lines 156-168), verbatim branch per
branch. -/
def isQuotaError (e : JsError) : Bool :=
  strContains (lowerMsg e) "quota" ||
  strContains (lowerMsg e) "rate limit" ||
  strContains (lowerMsg e) "limit exceeded" ||
  strContains (lowerMsg e) "resource exhausted" ||
  errStatus e == some 429 ||
  errStatus e == some 403

/-- `this.isQuotaError(lastError)` where `lastError` may be `null`: the
optional chains inside the source make the null case evaluate to `false`,
exactly as `isQuotaError ⟨none, none, none⟩` does. -/
def isQuotaErrorOpt : Option JsError → Bool
  | none => false
  | some e => isQuotaError e

/-- C3: the failure classifier is a total deterministic function of the
error's message and status/code: it reports quota exactly when the derived
status/code (`status`, falling back to `code` when `status` is absent or
`0`) equals 429 or 403, or the lower-cased message contains one of the four
quota substrings; and it is defined (returning `false`) on an error with
every field absent. -/
theorem isQuotaError_characterization :
    (∀ e : JsError,
      isQuotaError e = true ↔
        (errStatus e = some 429 ∨ errStatus e = some 403 ∨
         strContains (lowerMsg e) "quota" = true ∨
         strContains (lowerMsg e) "rate limit" = true ∨
         strContains (lowerMsg e) "limit exceeded" = true ∨
         strContains (lowerMsg e) "resource exhausted" = true)) ∧
    isQuotaError ⟨none, none, none⟩ = false := by
  constructor
  · intro e
    simp only [isQuotaError, Bool.or_eq_true, beq_iff_eq]
    tauto
  · decide

/-! ## Service state, database state, usage records -/

/-- One entry of `this.apiKeys` (name, secret value, original slot index). -/
structure ApiKey where
  keyName : String
  keyValue : String
  keyIndex : Nat
deriving DecidableEq, Repr

/-- The mutable in-memory fields of the singleton service. -/
structure Svc where
  apiKeys : List ApiKey
  currentKeyIndex : Nat
deriving DecidableEq, Repr

/-- One `logUsage` attempt record (the fields the claims are about). -/
structure UsageRecord where
  keyUsed : Option String
  success : Bool
  errorMessage : Option String
deriving DecidableEq, Repr

/-- Persisted database contents tracked by the model: appended usage rows,
the credentials marked `quota_exceeded`, and a counter of database calls
used to consult the failure oracle. -/
structure DbState where
  usageRows : List UsageRecord
  quotaMarked : List String
  opCount : Nat
deriving DecidableEq, Repr

/-- `logUsage` (lines 171-209): one try/catch around an insert of the usage
row and, for a successful keyed attempt, an update of the key's daily usage
counter.  A throwing call (oracle `true`) is caught and leaves the tracked
rows unchanged. -/
def dbLogUsage (oracle : Nat → Bool) (db : DbState) (r : UsageRecord) : DbState :=
  if oracle db.opCount then
    { db with opCount := db.opCount + 1 }
  else
    let db1 : DbState :=
      { db with usageRows := db.usageRows ++ [r], opCount := db.opCount + 1 }
    if r.keyUsed.isSome && r.success then
      { db1 with opCount := db1.opCount + 1 }
    else db1

/-- The `db.update(praggoAIKeys).set({status: quota_exceeded, ...})` call of
`rotateToNextKey`, inside its own try/catch. -/
def dbMarkQuota (oracle : Nat → Bool) (db : DbState) (name : String) : DbState :=
  if oracle db.opCount then
    { db with opCount := db.opCount + 1 }
  else
    { db with quotaMarked := db.quotaMarked ++ [name], opCount := db.opCount + 1 }

/-- `getCurrentKey` (lines 104-110): `null` for an empty pool, otherwise the
array read `this.apiKeys[this.currentKeyIndex]`, which in JS yields
`undefined` (here `none`) when the cursor is out of bounds. -/
def getCurrentKey (s : Svc) : Option ApiKey :=
  if s.apiKeys.length = 0 then none
  else s.apiKeys[s.currentKeyIndex]?

/-- `rotateToNextKey` (lines 125-153): early-return no-op for pools of size
≤ 1; otherwise best-effort mark of the outgoing key as quota-exceeded, then
`cursor ← (cursor + 1) % size`.  Returns the new service state, the new
database state and the boolean result. -/
def rotateToNextKey (oracle : Nat → Bool) (s : Svc) (db : DbState) :
    Svc × DbState × Bool :=
  if s.apiKeys.length ≤ 1 then (s, db, false)
  else
    ({ s with currentKeyIndex := (s.currentKeyIndex + 1) % s.apiKeys.length },
     (match getCurrentKey s with
      | some k => dbMarkQuota oracle db k.keyName
      | none => db),
     true)

/-- `refreshKeys` (lines 100-102) re-runs `initializeAPIKeys`, which
reassigns `this.apiKeys` from environment/database (abstracted here as the
`newKeys` argument) and never touches `currentKeyIndex`. -/
def refreshKeys (s : Svc) (newKeys : List ApiKey) : Svc :=
  { apiKeys := newKeys, currentKeyIndex := s.currentKeyIndex }

/-! ## The dispatch loop (`makeAPICall`, lines 211-325) -/

/-- `this.maxRetries` (line 13). -/
def maxRetries : Nat := 7

/-- Thrown when the loop finds no usable current key (line 228). -/
def msgNoKeys : String :=
  "Praggo AI এর কোনো API key কনফিগার করা নেই। অনুগ্রহ করে GEMINI_API_KEY_1, GEMINI_API_KEY_2 ইত্যাদি সেট করুন।"

/-- Line 317: daily usage limit over. -/
def msgLimitOver : String :=
  "আজের জন্য আপনার Praggo AI ব্যবহারের সীমা শেষ! আগামীকাল আবার চেষ্টা করুন।"

/-- Line 319: every API key's quota is full. -/
def msgAllKeysFull : String :=
  "Praggo AI এর সকল API key এর সীমা পূর্ণ! অনুগ্রহ করে কিছুক্ষণ পর চেষ্টা করুন।"

/-- Line 321 fallback when the last error has no usable message. -/
def msgGeneric : String :=
  "Praggo AI সেবায় সমস্যা হয়েছে। অনুগ্রহ করে আবার চেষ্টা করুন।"

/-- `lastError?.message?.includes('exhausted')` (line 316) — case
sensitive, falsy on a missing error or message. -/
def includesExhausted : Option JsError → Bool
  | none => false
  | some e =>
    match e.message with
    | none => false
    | some m => strContains m ("exhausted")

/-- Everything `makeAPICall` produces: the returned string or thrown error
message, the final in-memory service state, the final database state, the
sequence of `logUsage` attempt records, and the number of backend
invocations. -/
structure RunResult where
  result : Except String String
  svc : Svc
  db : DbState
  log : List UsageRecord
  calls : Nat
deriving Repr

/-- Lines 314-324: the error message thrown after the loop exits without a
success. `attempt` is the loop counter at exit; `last` is `lastError`.
JS `lastError?.message || generic` treats an empty message as falsy. -/
def finishError (s : Svc) (db : DbState) (calls : Nat) (log : List UsageRecord)
    (last : Option JsError) (attempt : Nat) : RunResult :=
  let msg :=
    if includesExhausted last = true ∨ s.apiKeys.length ≤ attempt then msgLimitOver
    else if isQuotaErrorOpt last = true then msgAllKeysFull
    else
      match last with
      | some e =>
        match e.message with
        | some m => if m = "" then msgGeneric else m
        | none => msgGeneric
      | none => msgGeneric
  ⟨Except.error msg, s, db, log, calls⟩

/-- The `while (attempt < this.maxRetries && attempt < this.apiKeys.length)`
loop (lines 224-312).  `fuel` co-tracks `maxRetries - attempt` so the
recursion is structural; the original guard is kept verbatim, so the
`fuel = 0` case coincides with the guard's first conjunct failing.
`calls` is the number of backend invocations so far and doubles as the
ordinal passed to the abstract backend. -/
def makeAPICallLoop (backend : Nat → ApiKey → Except JsError String)
    (oracle : Nat → Bool) :
    Nat → Svc → DbState → Nat → Nat → List UsageRecord → Option JsError → RunResult
  | 0, s, db, attempt, calls, log, last => finishError s db calls log last attempt
  | fuel + 1, s, db, attempt, calls, log, last =>
    if attempt < maxRetries ∧ attempt < s.apiKeys.length then
      match getCurrentKey s with
      | none =>
        -- lines 227-231: log a failed record with no key, then throw
        ⟨Except.error msgNoKeys, s,
          dbLogUsage oracle db ⟨none, false, some msgNoKeys⟩,
          log ++ [⟨none, false, some msgNoKeys⟩], calls⟩
      | some key =>
        match backend calls key with
        | Except.ok res =>
          -- lines 279-288: log success, return without touching the cursor
          ⟨Except.ok res, s,
            dbLogUsage oracle db ⟨some key.keyName, true, none⟩,
            log ++ [⟨some key.keyName, true, none⟩], calls + 1⟩
        | Except.error e =>
          -- lines 290-311: log failure, then classify
          if isQuotaError e then
            makeAPICallLoop backend oracle fuel
              (rotateToNextKey oracle s
                (dbLogUsage oracle db ⟨some key.keyName, false, e.message⟩)).1
              (rotateToNextKey oracle s
                (dbLogUsage oracle db ⟨some key.keyName, false, e.message⟩)).2.1
              (attempt + 1) (calls + 1)
              (log ++ [⟨some key.keyName, false, e.message⟩]) (some e)
          else
            finishError s
              (dbLogUsage oracle db ⟨some key.keyName, false, e.message⟩)
              (calls + 1) (log ++ [⟨some key.keyName, false, e.message⟩])
              (some e) attempt
    else finishError s db calls log last attempt

/-- `makeAPICall` entered with `attempt = 0`. -/
def makeAPICall (backend : Nat → ApiKey → Except JsError String)
    (oracle : Nat → Bool) (s : Svc) (db : DbState) : RunResult :=
  makeAPICallLoop backend oracle maxRetries s db 0 0 [] none

/-! ## Substring lemmas -/

lemma prefixMatch_self (n : List Char) : prefixMatch n n = true := by
  induction n with
  | nil => rfl
  | cons c cs ih => simp [prefixMatch, ih]

lemma prefixMatch_append (n h ys : List Char) (hp : prefixMatch n h = true) :
    prefixMatch n (h ++ ys) = true := by
  induction n generalizing h with
  | nil => rfl
  | cons c cs ih =>
    cases h with
    | nil => simp [prefixMatch] at hp
    | cons x xs =>
      simp only [prefixMatch, Bool.and_eq_true] at hp ⊢
      exact ⟨hp.1, ih xs hp.2⟩

lemma hasSubL_of_prefixMatch (n h : List Char) (hp : prefixMatch n h = true) :
    hasSubL n h = true := by
  cases h with
  | nil => simpa [hasSubL] using hp
  | cons x xs => simp [hasSubL, hp]

lemma hasSubL_nil_needle (h : List Char) : hasSubL [] h = true := by
  induction h with
  | nil => rfl
  | cons x xs ih => simp [hasSubL, prefixMatch]

lemma hasSubL_append_right (n xs ys : List Char) (h : hasSubL n xs = true) :
    hasSubL n (xs ++ ys) = true := by
  induction xs with
  | nil =>
    simp only [hasSubL] at h
    cases n with
    | nil => exact hasSubL_nil_needle ys
    | cons c cs => simp [prefixMatch] at h
  | cons x xs' ih =>
    simp only [hasSubL, Bool.or_eq_true] at h
    rcases h with hp | hs
    · exact hasSubL_of_prefixMatch _ _ (by
        simpa using prefixMatch_append n (x :: xs') ys hp)
    · simp only [List.cons_append, hasSubL, Bool.or_eq_true]
      exact Or.inr (ih hs)

lemma hasSubL_append_left (n xs ys : List Char) (h : hasSubL n ys = true) :
    hasSubL n (xs ++ ys) = true := by
  induction xs with
  | nil => simpa using h
  | cons x xs' ih =>
    simp only [List.cons_append, hasSubL, Bool.or_eq_true]
    exact Or.inr ih

lemma strData_append (a b : String) : (a ++ b).data = a.data ++ b.data := rfl

lemma strContains_self (s : String) : strContains s s = true :=
  hasSubL_of_prefixMatch _ _ (prefixMatch_self s.data)

lemma strContains_append_of_left (a b n : String)
    (h : strContains a n = true) : strContains (a ++ b) n = true := by
  simpa [strContains, strData_append] using hasSubL_append_right n.data a.data b.data h

lemma strContains_append_of_right (a b n : String)
    (h : strContains b n = true) : strContains (a ++ b) n = true := by
  simpa [strContains, strData_append] using hasSubL_append_left n.data a.data b.data h

/-! ## Basic state lemmas -/

lemma getCurrentKey_pos {s : Svc} {k : ApiKey} (h : getCurrentKey s = some k) :
    0 < s.apiKeys.length := by
  by_cases h0 : s.apiKeys.length = 0
  · simp [getCurrentKey, h0] at h
  · omega

lemma getCurrentKey_isSome {s : Svc} (hN : 0 < s.apiKeys.length)
    (hc : s.currentKeyIndex < s.apiKeys.length) :
    ∃ k, getCurrentKey s = some k := by
  refine ⟨s.apiKeys[s.currentKeyIndex], ?_⟩
  simp [getCurrentKey, Nat.pos_iff_ne_zero.mp hN, List.getElem?_eq_getElem hc]

lemma rotate_apiKeys (oracle : Nat → Bool) (s : Svc) (db : DbState) :
    (rotateToNextKey oracle s db).1.apiKeys = s.apiKeys := by
  by_cases h : s.apiKeys.length ≤ 1 <;> simp [rotateToNextKey, h]

lemma rotate_cursor (oracle : Nat → Bool) (s : Svc) (db : DbState)
    (hN : 1 ≤ s.apiKeys.length) (hc : s.currentKeyIndex < s.apiKeys.length) :
    (rotateToNextKey oracle s db).1.currentKeyIndex =
      (s.currentKeyIndex + 1) % s.apiKeys.length := by
  by_cases h : s.apiKeys.length ≤ 1
  · have hlen : s.apiKeys.length = 1 := by omega
    have hc0 : s.currentKeyIndex = 0 := by omega
    simp [rotateToNextKey, h, hc0, hlen]
  · simp [rotateToNextKey, h]

lemma rotate_svc_oblivious (o₁ o₂ : Nat → Bool) (s : Svc) (db₁ db₂ : DbState) :
    (rotateToNextKey o₁ s db₁).1 = (rotateToNextKey o₂ s db₂).1 := by
  by_cases h : s.apiKeys.length ≤ 1 <;> simp [rotateToNextKey, h]

/-! ## C7: rotation cycles through all slots -/

/-- Repeated application of `rotateToNextKey`, threading the database state
and its failure oracle along. -/
def rotIter (oracle : Nat → Bool) : Nat → Svc → DbState → Svc × DbState
  | 0, s, db => (s, db)
  | k + 1, s, db =>
    let r := rotateToNextKey oracle s db
    rotIter oracle k r.1 r.2.1

lemma rotIter_char (oracle : Nat → Bool) :
    ∀ (k : Nat) (s : Svc) (db : DbState),
      1 ≤ s.apiKeys.length → s.currentKeyIndex < s.apiKeys.length →
      (rotIter oracle k s db).1.apiKeys = s.apiKeys ∧
      (rotIter oracle k s db).1.currentKeyIndex =
        (s.currentKeyIndex + k) % s.apiKeys.length := by
  intro k
  induction k with
  | zero =>
    intro s db hN hc
    simpa [rotIter] using (Nat.mod_eq_of_lt hc).symm
  | succ k ih =>
    intro s db hN hc
    have hkeys := rotate_apiKeys oracle s db
    have hcur := rotate_cursor oracle s db hN hc
    have hN' : 1 ≤ (rotateToNextKey oracle s db).1.apiKeys.length := by
      rw [hkeys]; exact hN
    have hc' : (rotateToNextKey oracle s db).1.currentKeyIndex <
        (rotateToNextKey oracle s db).1.apiKeys.length := by
      rw [hkeys, hcur]
      exact Nat.mod_lt _ (by omega)
    obtain ⟨ih1, ih2⟩ := ih (rotateToNextKey oracle s db).1
      (rotateToNextKey oracle s db).2.1 hN' hc'
    constructor
    · simpa [rotIter, hkeys] using ih1
    · have : (rotIter oracle (k + 1) s db).1.currentKeyIndex =
          ((s.currentKeyIndex + 1) % s.apiKeys.length + k) % s.apiKeys.length := by
        simpa [rotIter, hcur, hkeys] using ih2
      rw [this, Nat.mod_add_mod]
      congr 1
      omega

/-- C7: for every pool of size N ≥ 1 and in-range starting cursor, the
first N cursors produced by repeated rotation stay in `[0, N)`, are
pairwise distinct, and hit every slot index; and for a pool of size ≤ 1
the rotation is the early-return no-op (so its `(cursor + 1) % size` is
never evaluated). -/
theorem rotation_cycle (oracle : Nat → Bool) (s : Svc) (db : DbState)
    (hN : 1 ≤ s.apiKeys.length) (hc : s.currentKeyIndex < s.apiKeys.length) :
    (∀ k, (rotIter oracle k s db).1.currentKeyIndex < s.apiKeys.length) ∧
    (∀ i j, i < s.apiKeys.length → j < s.apiKeys.length →
      (rotIter oracle i s db).1.currentKeyIndex =
        (rotIter oracle j s db).1.currentKeyIndex → i = j) ∧
    (∀ m, m < s.apiKeys.length →
      ∃ k, k < s.apiKeys.length ∧
        (rotIter oracle k s db).1.currentKeyIndex = m) ∧
    (s.apiKeys.length ≤ 1 → (rotateToNextKey oracle s db).1 = s) := by
  refine ⟨?_, ?_, ?_, ?_⟩
  · intro k
    rw [(rotIter_char oracle k s db hN hc).2]
    exact Nat.mod_lt _ (by omega)
  · intro i j hi hj hij
    rw [(rotIter_char oracle i s db hN hc).2,
        (rotIter_char oracle j s db hN hc).2] at hij
    have hmod : i ≡ j [MOD s.apiKeys.length] :=
      Nat.ModEq.add_left_cancel' s.currentKeyIndex hij
    have h2 : i % s.apiKeys.length = j % s.apiKeys.length := hmod
    rwa [Nat.mod_eq_of_lt hi, Nat.mod_eq_of_lt hj] at h2
  · intro m hm
    refine ⟨(m + s.apiKeys.length - s.currentKeyIndex) % s.apiKeys.length,
      Nat.mod_lt _ (by omega), ?_⟩
    rw [(rotIter_char oracle _ s db hN hc).2, Nat.add_mod_mod,
      show s.currentKeyIndex + (m + s.apiKeys.length - s.currentKeyIndex) =
        m + s.apiKeys.length by omega,
      Nat.add_mod_right]
    exact Nat.mod_eq_of_lt hm
  · intro h1
    simp [rotateToNextKey, h1]

/-! ## Lemmas about `finishError` and single-iteration behaviour -/

lemma finishError_calls (s : Svc) (db : DbState) (calls : Nat)
    (log : List UsageRecord) (last : Option JsError) (attempt : Nat) :
    (finishError s db calls log last attempt).calls = calls := rfl

lemma finishError_svc (s : Svc) (db : DbState) (calls : Nat)
    (log : List UsageRecord) (last : Option JsError) (attempt : Nat) :
    (finishError s db calls log last attempt).svc = s := rfl

lemma finishError_log (s : Svc) (db : DbState) (calls : Nat)
    (log : List UsageRecord) (last : Option JsError) (attempt : Nat) :
    (finishError s db calls log last attempt).log = log := rfl

lemma finishError_isError (s : Svc) (db : DbState) (calls : Nat)
    (log : List UsageRecord) (last : Option JsError) (attempt : Nat) :
    ∃ m, (finishError s db calls log last attempt).result = Except.error m := by
  unfold finishError
  exact ⟨_, rfl⟩

/-- When the loop finished with a quota-classified last error, or after at
least as many attempts as there are credentials, the thrown message is one
of the two quota-exhaustion messages (lines 316-319). -/
lemma finishError_msg (s : Svc) (db : DbState) (calls : Nat)
    (log : List UsageRecord) (last : Option JsError) (attempt : Nat)
    (h : isQuotaErrorOpt last = true ∨ s.apiKeys.length ≤ attempt) :
    (finishError s db calls log last attempt).result = Except.error msgLimitOver ∨
    (finishError s db calls log last attempt).result = Except.error msgAllKeysFull := by
  unfold finishError
  by_cases h1 : includesExhausted last = true ∨ s.apiKeys.length ≤ attempt
  · left; simp only [if_pos h1]
  · rcases h with hq | hlen
    · right; simp only [if_neg h1, if_pos hq]
    · exact absurd (Or.inr hlen) h1

/-- One unfolding of the loop when the current credential's backend call
fails with a non-quota error: the loop logs one failed record and breaks
out immediately (the `break` of line 309), leaving the service state
untouched. -/
lemma loop_succ_nonquota (backend : Nat → ApiKey → Except JsError String)
    (oracle : Nat → Bool) (fuel : Nat) (s : Svc) (db : DbState)
    (attempt calls : Nat) (log : List UsageRecord) (last : Option JsError)
    (key : ApiKey) (e : JsError)
    (hg : attempt < maxRetries) (hgN : attempt < s.apiKeys.length)
    (hk : getCurrentKey s = some key)
    (hb : backend calls key = Except.error e)
    (hq : isQuotaError e = false) :
    makeAPICallLoop backend oracle (fuel + 1) s db attempt calls log last =
      finishError s (dbLogUsage oracle db ⟨some key.keyName, false, e.message⟩)
        (calls + 1) (log ++ [⟨some key.keyName, false, e.message⟩])
        (some e) attempt := by
  simp only [makeAPICallLoop, if_pos (And.intro hg hgN), hk, hb, hq,
    Bool.false_eq_true, if_false]

/-- `makeAPICall` when the very first backend call fails with a non-quota
error. -/
lemma makeAPICall_first_nonquota (backend : Nat → ApiKey → Except JsError String)
    (oracle : Nat → Bool) (s : Svc) (db : DbState) (key : ApiKey) (e : JsError)
    (hk : getCurrentKey s = some key)
    (hb : backend 0 key = Except.error e)
    (hq : isQuotaError e = false) :
    makeAPICall backend oracle s db =
      finishError s (dbLogUsage oracle db ⟨some key.keyName, false, e.message⟩)
        1 [⟨some key.keyName, false, e.message⟩] (some e) 0 := by
  have hN : 0 < s.apiKeys.length := getCurrentKey_pos hk
  have h := loop_succ_nonquota backend oracle 6 s db 0 0 [] none key e
    (by norm_num [maxRetries]) hN hk hb hq
  simpa [makeAPICall, maxRetries] using h

/-- C4: if the first backend attempt fails with a fatal-classified
(non-quota) error, the dispatcher stops immediately with a thrown error:
exactly one Usage Record is logged (a failed one, against the credential
that was used), the in-memory state — in particular the cursor — is
unchanged, and no further backend invocation or rotation occurs. -/
theorem fatal_first_attempt_aborts (backend : Nat → ApiKey → Except JsError String)
    (oracle : Nat → Bool) (s : Svc) (db : DbState) (key : ApiKey) (e : JsError)
    (hk : getCurrentKey s = some key)
    (hb : backend 0 key = Except.error e)
    (hq : isQuotaError e = false) :
    (makeAPICall backend oracle s db).calls = 1 ∧
    (makeAPICall backend oracle s db).log.length = 1 ∧
    (makeAPICall backend oracle s db).svc = s ∧
    (∃ m, (makeAPICall backend oracle s db).result = Except.error m) := by
  rw [makeAPICall_first_nonquota backend oracle s db key e hk hb hq]
  exact ⟨rfl, rfl, rfl, finishError_isError _ _ _ _ _ _⟩

/-- C2 (amended): on a transient-looking (network/timeout, non-quota)
backend failure the dispatcher logs one failed Usage Record against the
same credential and does not advance the cursor, but it does NOT continue
to a next attempt: the non-quota branch breaks out of the loop at once, so
exactly one backend call is made regardless of the remaining attempt
budget. -/
theorem nonquota_stops_immediately (backend : Nat → ApiKey → Except JsError String)
    (oracle : Nat → Bool) (s : Svc) (db : DbState) (key : ApiKey) (e : JsError)
    (hk : getCurrentKey s = some key)
    (hb : backend 0 key = Except.error e)
    (hq : isQuotaError e = false) :
    (makeAPICall backend oracle s db).log =
      [⟨some key.keyName, false, e.message⟩] ∧
    (makeAPICall backend oracle s db).svc.currentKeyIndex = s.currentKeyIndex ∧
    (makeAPICall backend oracle s db).calls = 1 := by
  rw [makeAPICall_first_nonquota backend oracle s db key e hk hb hq]
  exact ⟨rfl, rfl, rfl⟩

/-! ## C1: all credentials quota-exhausted -/

lemma loop_quota_all (backend : Nat → ApiKey → Except JsError String)
    (eOf : Nat → ApiKey → JsError) (oracle : Nat → Bool)
    (hb : ∀ n k, backend n k = Except.error (eOf n k))
    (hq : ∀ n k, isQuotaError (eOf n k) = true) :
    ∀ (fuel : Nat) (s : Svc) (db : DbState) (attempt calls : Nat)
      (log : List UsageRecord) (last : Option JsError),
      attempt + fuel = maxRetries →
      1 ≤ s.apiKeys.length →
      s.currentKeyIndex < s.apiKeys.length →
      (min maxRetries s.apiKeys.length ≤ attempt →
        isQuotaErrorOpt last = true ∨ s.apiKeys.length ≤ attempt) →
      (makeAPICallLoop backend oracle fuel s db attempt calls log last).calls =
          calls + (min maxRetries s.apiKeys.length - attempt) ∧
      (makeAPICallLoop backend oracle fuel s db attempt calls log last).svc.apiKeys =
          s.apiKeys ∧
      (makeAPICallLoop backend oracle fuel s db attempt calls log last).svc.currentKeyIndex =
          (s.currentKeyIndex + (min maxRetries s.apiKeys.length - attempt)) %
            s.apiKeys.length ∧
      (makeAPICallLoop backend oracle fuel s db attempt calls log last).log.length =
          log.length + (min maxRetries s.apiKeys.length - attempt) ∧
      ((makeAPICallLoop backend oracle fuel s db attempt calls log last).result =
          Except.error msgLimitOver ∨
       (makeAPICallLoop backend oracle fuel s db attempt calls log last).result =
          Except.error msgAllKeysFull) := by
  intro fuel
  induction fuel with
  | zero =>
    intro s db attempt calls log last hinv hN hc hlast
    have h7 : maxRetries = 7 := rfl
    have hminle : min maxRetries s.apiKeys.length ≤ maxRetries :=
      Nat.min_le_left _ _
    have ht0 : min maxRetries s.apiKeys.length - attempt = 0 := by omega
    have hle : min maxRetries s.apiKeys.length ≤ attempt := by omega
    have hred : makeAPICallLoop backend oracle 0 s db attempt calls log last =
        finishError s db calls log last attempt := rfl
    refine ⟨?_, ?_, ?_, ?_, ?_⟩
    · rw [hred, finishError_calls, ht0]; omega
    · rw [hred, finishError_svc]
    · rw [hred, finishError_svc, ht0, Nat.add_zero, Nat.mod_eq_of_lt hc]
    · rw [hred, finishError_log, ht0]; omega
    · rw [hred]
      exact finishError_msg s db calls log last attempt (hlast hle)
  | succ fuel ih =>
    intro s db attempt calls log last hinv hN hc hlast
    have h7 : maxRetries = 7 := rfl
    by_cases hA : attempt < s.apiKeys.length
    · -- the guard holds: one more quota-failing attempt, then recurse
      have hg : attempt < maxRetries := by omega
      obtain ⟨key, hk⟩ := getCurrentKey_isSome (by omega) hc
      have hqe := hq calls key
      have hstep :
          makeAPICallLoop backend oracle (fuel + 1) s db attempt calls log last =
            makeAPICallLoop backend oracle fuel
              (rotateToNextKey oracle s
                (dbLogUsage oracle db
                  ⟨some key.keyName, false, (eOf calls key).message⟩)).1
              (rotateToNextKey oracle s
                (dbLogUsage oracle db
                  ⟨some key.keyName, false, (eOf calls key).message⟩)).2.1
              (attempt + 1) (calls + 1)
              (log ++ [⟨some key.keyName, false, (eOf calls key).message⟩])
              (some (eOf calls key)) := by
        simp only [makeAPICallLoop, if_pos (And.intro hg hA), hk, hb calls key,
          hqe, if_true]
      have hkeys := rotate_apiKeys oracle s
        (dbLogUsage oracle db ⟨some key.keyName, false, (eOf calls key).message⟩)
      have hcur := rotate_cursor oracle s
        (dbLogUsage oracle db ⟨some key.keyName, false, (eOf calls key).message⟩)
        (by omega) hc
      have hN' : 1 ≤ (rotateToNextKey oracle s
          (dbLogUsage oracle db
            ⟨some key.keyName, false, (eOf calls key).message⟩)).1.apiKeys.length := by
        rw [hkeys]; exact hN
      have hc' : (rotateToNextKey oracle s
            (dbLogUsage oracle db
              ⟨some key.keyName, false, (eOf calls key).message⟩)).1.currentKeyIndex <
          (rotateToNextKey oracle s
            (dbLogUsage oracle db
              ⟨some key.keyName, false, (eOf calls key).message⟩)).1.apiKeys.length := by
        rw [hkeys, hcur]
        exact Nat.mod_lt _ (by omega)
      obtain ⟨ih1, ih2, ih3, ih4, ih5⟩ := ih
        (rotateToNextKey oracle s
          (dbLogUsage oracle db ⟨some key.keyName, false, (eOf calls key).message⟩)).1
        (rotateToNextKey oracle s
          (dbLogUsage oracle db ⟨some key.keyName, false, (eOf calls key).message⟩)).2.1
        (attempt + 1) (calls + 1)
        (log ++ [⟨some key.keyName, false, (eOf calls key).message⟩])
        (some (eOf calls key))
        (by omega) hN' hc'
        (fun _ => Or.inl (by simpa [isQuotaErrorOpt] using hqe))
      rw [hkeys] at ih1 ih2 ih3 ih4
      have hTpos : attempt < min maxRetries s.apiKeys.length := by omega
      refine ⟨?_, ?_, ?_, ?_, ?_⟩
      · rw [hstep, ih1]; omega
      · rw [hstep, ih2]
      · rw [hstep, ih3, hcur, Nat.mod_add_mod]
        congr 1
        omega
      · rw [hstep, ih4]
        simp only [List.length_append, List.length_cons, List.length_nil]
        omega
      · rw [hstep]; exact ih5
    · -- the guard's second conjunct fails: exit with `attempt ≥ poolSize`
      have hguard : ¬(attempt < maxRetries ∧ attempt < s.apiKeys.length) := by
        intro hcontra; exact hA hcontra.2
      have ht0 : min maxRetries s.apiKeys.length - attempt = 0 := by
        have := Nat.min_le_right maxRetries s.apiKeys.length
        omega
      have hred : makeAPICallLoop backend oracle (fuel + 1) s db attempt calls log last =
          finishError s db calls log last attempt := by
        simp only [makeAPICallLoop, if_neg hguard]
      refine ⟨?_, ?_, ?_, ?_, ?_⟩
      · rw [hred, finishError_calls, ht0]; omega
      · rw [hred, finishError_svc]
      · rw [hred, finishError_svc, ht0, Nat.add_zero, Nat.mod_eq_of_lt hc]
      · rw [hred, finishError_log, ht0]; omega
      · rw [hred]
        exact finishError_msg s db calls log last attempt (Or.inr (by omega))

/-- C1: with a pool of N ≥ 1 credentials and a backend failing with a
quota-classified error on every invocation, `makeAPICall` makes exactly
`min(maxRetries, N)` backend attempts and logs as many failed Usage
Records, the cursor advances once per attempt (ending at
`(start + min(maxRetries, N)) % N`), and the call throws one of the two
quota-exhaustion messages (the source merges the spec's
`QuotaExhaustedAllCredentials` into the daily-limit / all-keys-full
message pair of lines 316-319). -/
theorem quota_all_keys_rotation (backend : Nat → ApiKey → Except JsError String)
    (eOf : Nat → ApiKey → JsError) (oracle : Nat → Bool) (s : Svc) (db : DbState)
    (hN : 1 ≤ s.apiKeys.length)
    (hc : s.currentKeyIndex < s.apiKeys.length)
    (hb : ∀ n k, backend n k = Except.error (eOf n k))
    (hq : ∀ n k, isQuotaError (eOf n k) = true) :
    (makeAPICall backend oracle s db).calls =
        min maxRetries s.apiKeys.length ∧
    (makeAPICall backend oracle s db).log.length =
        min maxRetries s.apiKeys.length ∧
    (makeAPICall backend oracle s db).svc.apiKeys = s.apiKeys ∧
    (makeAPICall backend oracle s db).svc.currentKeyIndex =
        (s.currentKeyIndex + min maxRetries s.apiKeys.length) %
          s.apiKeys.length ∧
    ((makeAPICall backend oracle s db).result = Except.error msgLimitOver ∨
     (makeAPICall backend oracle s db).result = Except.error msgAllKeysFull) := by
  obtain ⟨h1, h2, h3, h4, h5⟩ := loop_quota_all backend eOf oracle hb hq
    maxRetries s db 0 0 [] none (by omega) hN hc
    (by
      intro hle
      have hmin1 : 1 ≤ min maxRetries s.apiKeys.length :=
        Nat.le_min.mpr ⟨by decide, hN⟩
      exact absurd hle (by omega))
  refine ⟨?_, ?_, h2, ?_, h5⟩
  · simpa [makeAPICall] using h1
  · simpa [makeAPICall] using h4
  · simpa [makeAPICall] using h3

/-! ## C6: success leaves the cursor on the serving credential -/

lemma loop_ok_char (backend : Nat → ApiKey → Except JsError String)
    (oracle : Nat → Bool) :
    ∀ (fuel : Nat) (s : Svc) (db : DbState) (attempt calls : Nat)
      (log : List UsageRecord) (last : Option JsError) (res : String),
      (makeAPICallLoop backend oracle fuel s db attempt calls log last).result =
        Except.ok res →
      ∃ key,
        getCurrentKey
          (makeAPICallLoop backend oracle fuel s db attempt calls log last).svc =
            some key ∧
        backend
          ((makeAPICallLoop backend oracle fuel s db attempt calls log last).calls - 1)
          key = Except.ok res ∧
        (makeAPICallLoop backend oracle fuel s db attempt calls log last).log.getLast? =
          some ⟨some key.keyName, true, none⟩ := by
  intro fuel
  induction fuel with
  | zero =>
    intro s db attempt calls log last res h
    simp [makeAPICallLoop, finishError] at h
  | succ fuel ih =>
    intro s db attempt calls log last res h
    by_cases hguard : attempt < maxRetries ∧ attempt < s.apiKeys.length
    · rcases hcur : getCurrentKey s with _ | key
      · simp only [makeAPICallLoop, if_pos hguard, hcur] at h
        simp at h
      · rcases hbk : backend calls key with e | res'
        · by_cases hq : isQuotaError e = true
          · have hred :
                makeAPICallLoop backend oracle (fuel + 1) s db attempt calls log last =
                  makeAPICallLoop backend oracle fuel
                    (rotateToNextKey oracle s
                      (dbLogUsage oracle db ⟨some key.keyName, false, e.message⟩)).1
                    (rotateToNextKey oracle s
                      (dbLogUsage oracle db ⟨some key.keyName, false, e.message⟩)).2.1
                    (attempt + 1) (calls + 1)
                    (log ++ [⟨some key.keyName, false, e.message⟩]) (some e) := by
              simp only [makeAPICallLoop, if_pos hguard, hcur, hbk, hq, if_true]
            rw [hred] at h ⊢
            exact ih _ _ _ _ _ _ res h
          · have hq' : isQuotaError e = false := by simpa using hq
            rw [loop_succ_nonquota backend oracle fuel s db attempt calls log last
              key e hguard.1 hguard.2 hcur hbk hq'] at h
            simp [finishError] at h
        · have hred :
              makeAPICallLoop backend oracle (fuel + 1) s db attempt calls log last =
                ⟨Except.ok res', s,
                  dbLogUsage oracle db ⟨some key.keyName, true, none⟩,
                  log ++ [⟨some key.keyName, true, none⟩], calls + 1⟩ := by
            simp only [makeAPICallLoop, if_pos hguard, hcur, hbk]
          rw [hred] at h ⊢
          simp only [Except.ok.injEq] at h
          subst h
          exact ⟨key, hcur, by simpa using hbk, by simp [List.getLast?_concat]⟩
    · simp only [makeAPICallLoop, if_neg hguard] at h
      simp [finishError] at h

/-- C6: when `makeAPICall` returns successfully, the cursor is not
advanced by the successful attempt: the pool's current credential after the
call is exactly the credential whose (final) backend invocation produced
the returned result, and the last Usage Record is that credential's
success record — so the same credential remains selected for the next
call. -/
theorem success_sticky_cursor (backend : Nat → ApiKey → Except JsError String)
    (oracle : Nat → Bool) (s : Svc) (db : DbState) (res : String)
    (h : (makeAPICall backend oracle s db).result = Except.ok res) :
    ∃ key,
      getCurrentKey (makeAPICall backend oracle s db).svc = some key ∧
      backend ((makeAPICall backend oracle s db).calls - 1) key = Except.ok res ∧
      (makeAPICall backend oracle s db).log.getLast? =
        some ⟨some key.keyName, true, none⟩ :=
  loop_ok_char backend oracle maxRetries s db 0 0 [] none res h

/-! ## C9: persistence failures never influence the caller-visible outcome -/

lemma loop_oblivious (backend : Nat → ApiKey → Except JsError String) :
    ∀ (fuel : Nat) (s : Svc) (attempt calls : Nat) (log : List UsageRecord)
      (last : Option JsError) (o₁ o₂ : Nat → Bool) (db₁ db₂ : DbState),
      (makeAPICallLoop backend o₁ fuel s db₁ attempt calls log last).result =
        (makeAPICallLoop backend o₂ fuel s db₂ attempt calls log last).result ∧
      (makeAPICallLoop backend o₁ fuel s db₁ attempt calls log last).svc =
        (makeAPICallLoop backend o₂ fuel s db₂ attempt calls log last).svc ∧
      (makeAPICallLoop backend o₁ fuel s db₁ attempt calls log last).log =
        (makeAPICallLoop backend o₂ fuel s db₂ attempt calls log last).log ∧
      (makeAPICallLoop backend o₁ fuel s db₁ attempt calls log last).calls =
        (makeAPICallLoop backend o₂ fuel s db₂ attempt calls log last).calls := by
  intro fuel
  induction fuel with
  | zero =>
    intro s attempt calls log last o₁ o₂ db₁ db₂
    exact ⟨rfl, rfl, rfl, rfl⟩
  | succ fuel ih =>
    intro s attempt calls log last o₁ o₂ db₁ db₂
    by_cases hguard : attempt < maxRetries ∧ attempt < s.apiKeys.length
    · rcases hcur : getCurrentKey s with _ | key
      · refine ⟨?_, ?_, ?_, ?_⟩ <;>
          simp only [makeAPICallLoop, if_pos hguard, hcur]
      · rcases hbk : backend calls key with e | res'
        · by_cases hq : isQuotaError e = true
          · have hsvc := rotate_svc_oblivious o₁ o₂ s
              (dbLogUsage o₁ db₁ ⟨some key.keyName, false, e.message⟩)
              (dbLogUsage o₂ db₂ ⟨some key.keyName, false, e.message⟩)
            simp only [makeAPICallLoop, if_pos hguard, hcur, hbk, hq, if_true]
            rw [hsvc]
            exact ih _ _ _ _ _ o₁ o₂ _ _
          · have hq' : isQuotaError e = false := by simpa using hq
            rw [loop_succ_nonquota backend o₁ fuel s db₁ attempt calls log last
                key e hguard.1 hguard.2 hcur hbk hq',
              loop_succ_nonquota backend o₂ fuel s db₂ attempt calls log last
                key e hguard.1 hguard.2 hcur hbk hq']
            exact ⟨rfl, rfl, rfl, rfl⟩
        · refine ⟨?_, ?_, ?_, ?_⟩ <;>
            simp only [makeAPICallLoop, if_pos hguard, hcur, hbk]
    · refine ⟨?_, ?_, ?_, ?_⟩ <;>
        simp only [makeAPICallLoop, if_neg hguard] <;> rfl

/-- C9: a failing persistence layer never propagates to the caller: for
any two database-failure oracles (including the all-succeeding and the
all-failing one) and any starting database states, `makeAPICall` returns
the same result, the same final in-memory pool/cursor, the same sequence
of attempted Usage Records and the same number of backend calls.  The
try/catch blocks around `logUsage`'s insert and `rotateToNextKey`'s status
update are what makes this hold. -/
theorem persistence_failure_immaterial (backend : Nat → ApiKey → Except JsError String)
    (o₁ o₂ : Nat → Bool) (s : Svc) (db₁ db₂ : DbState) :
    (makeAPICall backend o₁ s db₁).result = (makeAPICall backend o₂ s db₂).result ∧
    (makeAPICall backend o₁ s db₁).svc = (makeAPICall backend o₂ s db₂).svc ∧
    (makeAPICall backend o₁ s db₁).log = (makeAPICall backend o₂ s db₂).log ∧
    (makeAPICall backend o₁ s db₁).calls = (makeAPICall backend o₂ s db₂).calls :=
  loop_oblivious backend maxRetries s 0 0 [] none o₁ o₂ db₁ db₂

/-! ## C5: `generateQuestions` in demo mode (empty pool) -/

/-- One element of the `sampleQuestions` array (lines 346-353). -/
structure SampleQuestion where
  questionText : String
  questionType : String
  options : Option (List String)
  correctAnswer : Option String
  answer : String
  marks : Nat
deriving DecidableEq, Repr

/-- The i-th placeholder question built by the empty-pool branch of
`generateQuestions` (lines 344-354), field by field. -/
def sampleQuestion (subject chapter questionType difficulty : String)
    (i : Nat) : SampleQuestion :=
  { questionText :=
      "নমুনা " ++ (if subject = "chemistry" then "রসায়ন" else "ICT") ++
      " প্রশ্ন " ++ toString (i + 1) ++ " - " ++ chapter ++
      " (" ++ difficulty ++ " স্তর)"
  , questionType := questionType
  , options :=
      if questionType = "mcq" then
        some ["বিকল্প ক", "বিকল্প খ", "বিকল্প গ", "বিকল্প ঘ"]
      else none
  , correctAnswer := if questionType = "mcq" then some ("বিকল্প ক") else none
  , answer := "Praggo AI সঠিক উত্তর এখানে প্রদান করবে। sir এর সাথে যোগাযোগ করুন।"
  , marks :=
      if questionType = "creative" then 10
      else if questionType = "cq" then 2 else 1 }

/-- What `generateQuestions` produces: placeholder questions in demo mode,
or a dispatched `makeAPICall` run otherwise (whose textual result then goes
through JSON extraction — not modelled, as no claim concerns it). -/
inductive GenOutcome where
  | samples (qs : List SampleQuestion)
  | dispatched (r : RunResult)
deriving Repr

/-- `generateQuestions` (lines 328-468): the empty-pool branch returns the
`count` placeholder questions and performs no backend call and no database
write; the other branch routes through `makeAPICall`.  Parameters not used
by either modelled branch (exam type, class level, category) are kept for
shape. -/
def generateQuestions (backend : Nat → ApiKey → Except JsError String)
    (oracle : Nat → Bool) (s : Svc) (db : DbState)
    (subject examType classLevel chapter questionType questionCategory
      difficulty : String) (count : Nat) : GenOutcome × DbState :=
  if s.apiKeys.length = 0 then
    (GenOutcome.samples ((List.range count).map
      (sampleQuestion subject chapter questionType difficulty)), db)
  else
    (GenOutcome.dispatched (makeAPICall backend oracle s db),
      (makeAPICall backend oracle s db).db)

/-- C5: with an empty credential pool, `generateQuestions` returns exactly
`count` placeholder items whose text is tagged with the requested subject
and difficulty, whose `options`/`correctAnswer` are present exactly for
`mcq`, and whose marks are 10/2/1 for creative/cq/mcq; the database is
untouched (zero Usage Records) and the outcome is independent of the
backend and of the persistence oracle (the backend is never invoked). -/
theorem empty_pool_sample_questions
    (backend backend' : Nat → ApiKey → Except JsError String)
    (oracle oracle' : Nat → Bool) (s : Svc) (db : DbState)
    (subject examType classLevel chapter questionType questionCategory
      difficulty : String) (count : Nat)
    (h : s.apiKeys.length = 0) :
    (∃ qs,
      (generateQuestions backend oracle s db subject examType classLevel
        chapter questionType questionCategory difficulty count).1 =
          GenOutcome.samples qs ∧
      qs.length = count ∧
      ∀ q ∈ qs,
        strContains q.questionText difficulty = true ∧
        strContains q.questionText
          (if subject = "chemistry" then "রসায়ন" else "ICT") = true ∧
        q.questionType = questionType ∧
        (q.options.isSome ↔ questionType = "mcq") ∧
        (q.correctAnswer.isSome ↔ questionType = "mcq") ∧
        (questionType = "creative" → q.marks = 10) ∧
        (questionType = "cq" → q.marks = 2) ∧
        (questionType = "mcq" → q.marks = 1)) ∧
    (generateQuestions backend oracle s db subject examType classLevel
      chapter questionType questionCategory difficulty count).2 = db ∧
    generateQuestions backend oracle s db subject examType classLevel
      chapter questionType questionCategory difficulty count =
      generateQuestions backend' oracle' s db subject examType classLevel
        chapter questionType questionCategory difficulty count := by
  have hred :
      generateQuestions backend oracle s db subject examType classLevel
        chapter questionType questionCategory difficulty count =
        (GenOutcome.samples ((List.range count).map
          (sampleQuestion subject chapter questionType difficulty)), db) := by
    simp [generateQuestions, h]
  have hred' :
      generateQuestions backend' oracle' s db subject examType classLevel
        chapter questionType questionCategory difficulty count =
        (GenOutcome.samples ((List.range count).map
          (sampleQuestion subject chapter questionType difficulty)), db) := by
    simp [generateQuestions, h]
  refine ⟨⟨(List.range count).map
    (sampleQuestion subject chapter questionType difficulty),
    by rw [hred], by simp, ?_⟩, by rw [hred], by rw [hred, hred']⟩
  intro q hq
  rw [List.mem_map] at hq
  obtain ⟨i, _, rfl⟩ := hq
  refine ⟨?_, ?_, rfl, ?_, ?_, ?_, ?_, ?_⟩
  · show strContains
      ("নমুনা " ++ (if subject = "chemistry" then "রসায়ন" else "ICT") ++
        " প্রশ্ন " ++ toString (i + 1) ++ " - " ++ chapter ++
        " (" ++ difficulty ++ " স্তর)") difficulty = true
    apply strContains_append_of_left
    apply strContains_append_of_right
    exact strContains_self difficulty
  · show strContains
      ("নমুনা " ++ (if subject = "chemistry" then "রসায়ন" else "ICT") ++
        " প্রশ্ন " ++ toString (i + 1) ++ " - " ++ chapter ++
        " (" ++ difficulty ++ " স্তর)")
      (if subject = "chemistry" then "রসায়ন" else "ICT") = true
    apply strContains_append_of_left
    apply strContains_append_of_left
    apply strContains_append_of_left
    apply strContains_append_of_left
    apply strContains_append_of_left
    apply strContains_append_of_left
    apply strContains_append_of_left
    apply strContains_append_of_right
    exact strContains_self _
  · by_cases hm : questionType = "mcq" <;> simp [sampleQuestion, hm]
  · by_cases hm : questionType = "mcq" <;> simp [sampleQuestion, hm]
  · intro hcr
    simp [sampleQuestion, hcr]
  · intro hcq
    have : questionType ≠ "creative" := by rw [hcq]; decide
    simp [sampleQuestion, hcq, this]
  · intro hmc
    have h1 : questionType ≠ "creative" := by rw [hmc]; decide
    have h2 : questionType ≠ "cq" := by rw [hmc]; decide
    simp [sampleQuestion, h1, h2]

/-! ## C10: `solveDoubt` is total over dispatch outcomes -/

/-- The demo-mode reply of `solveDoubt` (line 479). -/
def demoDoubtText (subject question : String) : String :=
  "🤖 Praggo AI সমাধান (ডেমো মোড)\n\nআপনার " ++
  (if subject = "chemistry" then "রসায়ন" else "ICT") ++
  " প্রশ্ন: \"" ++ question ++
  "\"\n\nএটি Praggo AI দ্বারা প্রদত্ত বিস্তারিত ব্যাখ্যা হবে। সঠিক AI সমাধান পেতে sir এর সাথে যোগাযোগ করুন।"

/-- The catch-branch reply of `solveDoubt` (line 526), embedding
`error.message`. -/
def doubtErrorText (subject question m : String) : String :=
  "🤖 Praggo AI সমাধান (ত্রুটি)\n\nআপনার " ++
  (if subject = "chemistry" then "রসায়ন" else "তথ্য ও যোগাযোগ প্রযুক্তি") ++
  " প্রশ্ন: \"" ++ question ++ "\"\n\n❌ " ++ m ++
  "\n\nঅনুগ্রহ করে কিছুক্ষণ পর আবার চেষ্টা করুন বা শিক্ষকের সাহায্য নিন।"

/-- `solveDoubt` (lines 471-528): demo text for an empty pool; otherwise
the `makeAPICall` result, with any thrown error caught and rendered into
the error text (the Bengali prompt construction does not influence the
abstracted backend and is elided). -/
def solveDoubt (backend : Nat → ApiKey → Except JsError String)
    (oracle : Nat → Bool) (s : Svc) (db : DbState)
    (question subject : String) : String × Svc × DbState :=
  if s.apiKeys.length = 0 then
    (demoDoubtText subject question, s, db)
  else
    match (makeAPICall backend oracle s db).result with
    | Except.ok res =>
      (res, (makeAPICall backend oracle s db).svc,
        (makeAPICall backend oracle s db).db)
    | Except.error m =>
      (doubtErrorText subject question m,
        (makeAPICall backend oracle s db).svc,
        (makeAPICall backend oracle s db).db)

/-- C10: `solveDoubt` always returns a string, never propagating a
failure: with an empty pool it returns the demo text (which quotes the
question); when the dispatcher throws an error message `m`, the catch
branch returns the formatted error text containing `m`; and when the
dispatcher succeeds it returns the successful result verbatim. -/
theorem solveDoubt_total_over_dispatch
    (backend : Nat → ApiKey → Except JsError String) (oracle : Nat → Bool)
    (s : Svc) (db : DbState) (question subject : String) :
    (s.apiKeys.length = 0 →
      (solveDoubt backend oracle s db question subject).1 =
        demoDoubtText subject question ∧
      strContains (solveDoubt backend oracle s db question subject).1
        question = true) ∧
    (∀ m, (makeAPICall backend oracle s db).result = Except.error m →
      s.apiKeys.length ≠ 0 →
      (solveDoubt backend oracle s db question subject).1 =
        doubtErrorText subject question m ∧
      strContains (solveDoubt backend oracle s db question subject).1
        m = true) ∧
    (∀ r, (makeAPICall backend oracle s db).result = Except.ok r →
      s.apiKeys.length ≠ 0 →
      (solveDoubt backend oracle s db question subject).1 = r) := by
  refine ⟨?_, ?_, ?_⟩
  · intro h0
    have hred : (solveDoubt backend oracle s db question subject).1 =
        demoDoubtText subject question := by
      simp [solveDoubt, h0]
    refine ⟨hred, ?_⟩
    rw [hred]
    show strContains
      ("🤖 Praggo AI সমাধান (ডেমো মোড)\n\nআপনার " ++
        (if subject = "chemistry" then "রসায়ন" else "ICT") ++
        " প্রশ্ন: \"" ++ question ++
        "\"\n\nএটি Praggo AI দ্বারা প্রদত্ত বিস্তারিত ব্যাখ্যা হবে। সঠিক AI সমাধান পেতে sir এর সাথে যোগাযোগ করুন।")
      question = true
    apply strContains_append_of_left
    apply strContains_append_of_right
    exact strContains_self question
  · intro m hm h0
    have hred : (solveDoubt backend oracle s db question subject).1 =
        doubtErrorText subject question m := by
      simp [solveDoubt, h0, hm]
    refine ⟨hred, ?_⟩
    rw [hred]
    show strContains
      ("🤖 Praggo AI সমাধান (ত্রুটি)\n\nআপনার " ++
        (if subject = "chemistry" then "রসায়ন" else "তথ্য ও যোগাযোগ প্রযুক্তি") ++
        " প্রশ্ন: \"" ++ question ++ "\"\n\n❌ " ++ m ++
        "\n\nঅনুগ্রহ করে কিছুক্ষণ পর আবার চেষ্টা করুন বা শিক্ষকের সাহায্য নিন।")
      m = true
    apply strContains_append_of_left
    apply strContains_append_of_right
    exact strContains_self m
  · intro r hr h0
    simp [solveDoubt, h0, hr]

/-! ## C8: refreshing the pool does not reset the cursor (code bug) -/

/-- Concrete credential fixtures for the closed theorems below. -/
def kA : ApiKey := ⟨"GEMINI_API_KEY", "aaaa-key-value", 0⟩

def kB : ApiKey := ⟨"GEMINI_API_KEY_2", "bbbb-key-value", 1⟩

def kC : ApiKey := ⟨"GEMINI_API_KEY_3", "cccc-key-value", 2⟩

def dbEmpty : DbState := ⟨[], [], 0⟩

def oracleOk : Nat → Bool := fun _ => false

/-- C8 (code bug witness): `refreshKeys` rebuilds the pool but leaves
`currentKeyIndex` untouched, so shrinking the pool from 3 credentials
(cursor at 2) to 1 leaves the cursor at 2 — outside `[0, 1)` — and
`getCurrentKey` yields nothing for a NON-empty pool; `makeAPICall` then
throws the "no API keys configured" message even though the backend would
have succeeded.  The spec's claim that rebuild resets the cursor to 0 (and
that the cursor stays in range) is violated by the code. -/
theorem refresh_stale_cursor_bug :
    (refreshKeys ⟨[kA, kB, kC], 2⟩ [kA]).apiKeys.length = 1 ∧
    (refreshKeys ⟨[kA, kB, kC], 2⟩ [kA]).currentKeyIndex = 2 ∧
    ¬ ((refreshKeys ⟨[kA, kB, kC], 2⟩ [kA]).currentKeyIndex <
        (refreshKeys ⟨[kA, kB, kC], 2⟩ [kA]).apiKeys.length) ∧
    getCurrentKey (refreshKeys ⟨[kA, kB, kC], 2⟩ [kA]) = none ∧
    (makeAPICall (fun _ _ => Except.ok ("ok")) oracleOk
      (refreshKeys ⟨[kA, kB, kC], 2⟩ [kA]) dbEmpty).result =
      Except.error msgNoKeys := by
  refine ⟨by decide, by decide, by decide, by decide, ?_⟩
  rfl

/-! ## Concrete fixtures and witnesses -/

/-- A quota-classified error (message contains "quota", status 429). -/
def qErr : JsError := ⟨some ("quota exceeded"), some 429, none⟩

/-- A transient-looking network error: not quota-classified. -/
def tErr : JsError := ⟨some ("connection reset by peer"), some 503, none⟩

/-- A fatal upstream error: not quota-classified. -/
def fErr : JsError := ⟨some ("invalid request payload"), some 400, none⟩

/-- A bare error with only a message. -/
def bErr : JsError := ⟨some ("boom"), none, none⟩

def sA : Svc := ⟨[kA], 0⟩

def sAB : Svc := ⟨[kA, kB], 0⟩

def sABC : Svc := ⟨[kA, kB, kC], 0⟩

def sEmpty : Svc := ⟨[], 0⟩

/-- A backend that quota-fails on slot 0 and succeeds on any other slot. -/
def backendSticky : Nat → ApiKey → Except JsError String :=
  fun _ k => if k.keyIndex = 0 then Except.error qErr else Except.ok ("উত্তর")

/-- C2 counterexample: with a 2-credential pool and an attempt budget of
`min(maxRetries, 2) = 2`, a backend failing with a transient
(network/timeout, non-quota) error does NOT make the dispatcher continue
to a next attempt on the same credential: exactly one backend call happens
(the non-quota branch breaks the loop), refuting the claimed
retry-without-rotating behaviour. -/
theorem transient_no_retry_cex :
    isQuotaError tErr = false ∧
    min maxRetries sAB.apiKeys.length = 2 ∧
    (makeAPICall (fun _ _ => Except.error tErr) oracleOk sAB dbEmpty).calls = 1 := by
  refine ⟨by decide, by decide, ?_⟩
  rfl

theorem quota_all_keys_rotation_witness :
    (1 ≤ sAB.apiKeys.length ∧ sAB.currentKeyIndex < sAB.apiKeys.length) ∧
    ((makeAPICall (fun _ _ => Except.error qErr) oracleOk sAB dbEmpty).calls =
        min maxRetries sAB.apiKeys.length ∧
      (makeAPICall (fun _ _ => Except.error qErr) oracleOk sAB dbEmpty).log.length =
        min maxRetries sAB.apiKeys.length ∧
      (makeAPICall (fun _ _ => Except.error qErr) oracleOk sAB dbEmpty).svc.apiKeys =
        sAB.apiKeys ∧
      (makeAPICall (fun _ _ => Except.error qErr) oracleOk sAB dbEmpty).svc.currentKeyIndex =
        (sAB.currentKeyIndex + min maxRetries sAB.apiKeys.length) %
          sAB.apiKeys.length ∧
      ((makeAPICall (fun _ _ => Except.error qErr) oracleOk sAB dbEmpty).result =
          Except.error msgLimitOver ∨
        (makeAPICall (fun _ _ => Except.error qErr) oracleOk sAB dbEmpty).result =
          Except.error msgAllKeysFull)) :=
  ⟨⟨by decide, by decide⟩,
    quota_all_keys_rotation (fun _ _ => Except.error qErr) (fun _ _ => qErr)
      oracleOk sAB dbEmpty (by decide) (by decide) (fun _ _ => rfl)
      (fun _ _ => (show isQuotaError qErr = true by decide))⟩

theorem nonquota_stops_immediately_witness :
    (getCurrentKey sAB = some kA ∧ isQuotaError tErr = false) ∧
    ((makeAPICall (fun _ _ => Except.error tErr) oracleOk sAB dbEmpty).log =
        [⟨some kA.keyName, false, tErr.message⟩] ∧
      (makeAPICall (fun _ _ => Except.error tErr) oracleOk sAB
          dbEmpty).svc.currentKeyIndex = sAB.currentKeyIndex ∧
      (makeAPICall (fun _ _ => Except.error tErr) oracleOk sAB dbEmpty).calls = 1) :=
  ⟨⟨by decide, by decide⟩,
    nonquota_stops_immediately (fun _ _ => Except.error tErr) oracleOk sAB
      dbEmpty kA tErr (by decide) rfl (by decide)⟩

theorem fatal_first_attempt_aborts_witness :
    (getCurrentKey sAB = some kA ∧ isQuotaError fErr = false) ∧
    ((makeAPICall (fun _ _ => Except.error fErr) oracleOk sAB dbEmpty).calls = 1 ∧
      (makeAPICall (fun _ _ => Except.error fErr) oracleOk sAB dbEmpty).log.length = 1 ∧
      (makeAPICall (fun _ _ => Except.error fErr) oracleOk sAB dbEmpty).svc = sAB ∧
      (∃ m, (makeAPICall (fun _ _ => Except.error fErr) oracleOk sAB dbEmpty).result =
        Except.error m)) :=
  ⟨⟨by decide, by decide⟩,
    fatal_first_attempt_aborts (fun _ _ => Except.error fErr) oracleOk sAB
      dbEmpty kA fErr (by decide) rfl (by decide)⟩

theorem empty_pool_sample_questions_witness :
    sEmpty.apiKeys.length = 0 ∧
    ((∃ qs,
      (generateQuestions (fun _ _ => Except.ok ("x")) oracleOk sEmpty dbEmpty
        ("chemistry") ("academic") ("9-10") ("অধ্যায় ১") ("mcq") ("mixed")
        ("easy") 3).1 = GenOutcome.samples qs ∧
      qs.length = 3 ∧
      ∀ q ∈ qs,
        strContains q.questionText ("easy") = true ∧
        strContains q.questionText
          (if ("chemistry" : String) = "chemistry" then "রসায়ন" else "ICT") = true ∧
        q.questionType = "mcq" ∧
        (q.options.isSome ↔ ("mcq" : String) = "mcq") ∧
        (q.correctAnswer.isSome ↔ ("mcq" : String) = "mcq") ∧
        (("mcq" : String) = "creative" → q.marks = 10) ∧
        (("mcq" : String) = "cq" → q.marks = 2) ∧
        (("mcq" : String) = "mcq" → q.marks = 1)) ∧
    (generateQuestions (fun _ _ => Except.ok ("x")) oracleOk sEmpty dbEmpty
      ("chemistry") ("academic") ("9-10") ("অধ্যায় ১") ("mcq") ("mixed")
      ("easy") 3).2 = dbEmpty ∧
    generateQuestions (fun _ _ => Except.ok ("x")) oracleOk sEmpty dbEmpty
      ("chemistry") ("academic") ("9-10") ("অধ্যায় ১") ("mcq") ("mixed")
      ("easy") 3 =
      generateQuestions (fun _ _ => Except.error bErr) (fun _ => true) sEmpty
        dbEmpty ("chemistry") ("academic") ("9-10") ("অধ্যায় ১") ("mcq")
        ("mixed") ("easy") 3) :=
  ⟨rfl,
    empty_pool_sample_questions (fun _ _ => Except.ok ("x"))
      (fun _ _ => Except.error bErr) oracleOk (fun _ => true) sEmpty dbEmpty
      ("chemistry") ("academic") ("9-10") ("অধ্যায় ১") ("mcq") ("mixed")
      ("easy") 3 rfl⟩

theorem success_sticky_cursor_witness :
    (makeAPICall backendSticky oracleOk sAB dbEmpty).result =
        Except.ok ("উত্তর") ∧
    (∃ key,
      getCurrentKey (makeAPICall backendSticky oracleOk sAB dbEmpty).svc =
        some key ∧
      backendSticky ((makeAPICall backendSticky oracleOk sAB dbEmpty).calls - 1)
        key = Except.ok ("উত্তর") ∧
      (makeAPICall backendSticky oracleOk sAB dbEmpty).log.getLast? =
        some ⟨some key.keyName, true, none⟩) ∧
    (makeAPICall backendSticky oracleOk sAB dbEmpty).svc.currentKeyIndex = 1 :=
  ⟨rfl,
    success_sticky_cursor backendSticky oracleOk sAB dbEmpty ("উত্তর") rfl,
    rfl⟩

theorem rotation_cycle_witness :
    (1 ≤ sABC.apiKeys.length ∧ sABC.currentKeyIndex < sABC.apiKeys.length) ∧
    ((∀ k, (rotIter oracleOk k sABC dbEmpty).1.currentKeyIndex <
        sABC.apiKeys.length) ∧
      (∀ i j, i < sABC.apiKeys.length → j < sABC.apiKeys.length →
        (rotIter oracleOk i sABC dbEmpty).1.currentKeyIndex =
          (rotIter oracleOk j sABC dbEmpty).1.currentKeyIndex → i = j) ∧
      (∀ m, m < sABC.apiKeys.length →
        ∃ k, k < sABC.apiKeys.length ∧
          (rotIter oracleOk k sABC dbEmpty).1.currentKeyIndex = m) ∧
      (sABC.apiKeys.length ≤ 1 → (rotateToNextKey oracleOk sABC dbEmpty).1 = sABC)) :=
  ⟨⟨by decide, by decide⟩, rotation_cycle oracleOk sABC dbEmpty (by decide) (by decide)⟩

theorem solveDoubt_total_witness :
    ((makeAPICall (fun _ _ => Except.error bErr) oracleOk sA dbEmpty).result =
        Except.error ("boom") ∧ sA.apiKeys.length ≠ 0) ∧
    ((solveDoubt (fun _ _ => Except.error bErr) oracleOk sA dbEmpty
        ("আমার প্রশ্ন") ("ict")).1 =
      doubtErrorText ("ict") ("আমার প্রশ্ন") ("boom") ∧
      strContains (solveDoubt (fun _ _ => Except.error bErr) oracleOk sA dbEmpty
        ("আমার প্রশ্ন") ("ict")).1 ("boom") = true) :=
  ⟨⟨rfl, by decide⟩,
    (solveDoubt_total_over_dispatch (fun _ _ => Except.error bErr) oracleOk sA
      dbEmpty ("আমার প্রশ্ন") ("ict")).2.1 ("boom") rfl (by decide)⟩

end PraggoAI
